import Mathlib

/-!
Verification of the IBVRD record-management system's data-access and
validation layer, shallowly embedded from the Python source
(`main.py`, `models/database.py`, `services/pessoa_service.py`,
`services/evento_service.py`, `finaiceiro.py`).

Text is modelled as `List Char` (byte/codepoint comparisons on digits and
ASCII punctuation coincide with SQLite's BINARY collation on these inputs).
Digits are modelled as ASCII digits; machine floats in the ledger are
modelled as exact rationals (the parsed value of
`CurrencyFormatter.parse_value`).
-/

deriving instance DecidableEq for Except

namespace IBVRD

abbrev Str := List Char

/-- Numeric value of an ASCII digit character (`int(x)` in the source). -/
def charVal (c : Char) : Nat := c.toNat - 48

/-- `Utils.normalize_cpf` (main.py 127-131): keep only digit characters;
empty input stays empty. -/
def normalize_cpf (s : Str) : Str := s.filter Char.isDigit

/-- `Utils.normalize_phone` (main.py 133-138): keep only digit characters. -/
def normalize_phone (s : Str) : Str := s.filter Char.isDigit

/-- `calc_digit` inside `Utils.validate_cpf` (main.py 171-174):
weighted sum, remainder `11 - s % 11`, mapped to 0 when ≥ 10.
`s % 11 ≤ 10`, so the Nat subtraction agrees with Python's int. -/
def calcDigit (ns ws : List Nat) : Nat :=
  let s := (List.zipWith (· * ·) ns ws).sum
  let r := 11 - s % 11
  if 10 ≤ r then 0 else r

/-- `Utils.validate_cpf` (main.py 159-179). The regex `^\d{11}$` applied to
the normalized (all-digit) string is exactly a length-11 test.
`d == d[0] * 11` is the all-identical test. -/
def validate_cpf (cpf : Str) : Bool :=
  let d := normalize_cpf cpf
  if d.length ≠ 11 then false
  else if d = List.replicate 11 (d.headD '0') then false
  else
    let nums := d.map charVal
    let d1 := calcDigit (nums.take 9) [10, 9, 8, 7, 6, 5, 4, 3, 2]
    let d2 := calcDigit (nums.take 10) [11, 10, 9, 8, 7, 6, 5, 4, 3, 2]
    nums.getD 9 0 == d1 && nums.getD 10 0 == d2

/-- `Utils.format_cpf` (main.py 141-146): standard punctuation groups when
the normalized length is exactly 11, otherwise the input unchanged. -/
def format_cpf (cpf : Str) : Str :=
  let d := normalize_cpf cpf
  if d.length ≠ 11 then cpf
  else d.take 3 ++ '.' :: (d.drop 3).take 3 ++ '.' :: (d.drop 6).take 3
        ++ '-' :: (d.drop 9).take 2

/-- Gregorian leap-year rule used by `datetime`. -/
def isLeap (y : Nat) : Bool := (y % 4 == 0 && y % 100 != 0) || y % 400 == 0

/-- Days in a month, as enforced by `datetime.strptime`. -/
def daysInMonth (m y : Nat) : Nat :=
  if m = 2 then (if isLeap y then 29 else 28)
  else if m = 4 ∨ m = 6 ∨ m = 9 ∨ m = 11 then 30
  else 31

/-- Value of a digit string read in base 10. -/
def listVal (l : Str) : Nat := l.foldl (fun a c => 10 * a + charVal c) 0

/-- `datetime.strptime(s, "%d/%m/%Y")`, returning `(day, month, year)`.
CPython's `_strptime` matches 1-2 digits for `%d`/`%m`, exactly 4 digits
for `%Y`, rejects trailing text, and `datetime` then enforces real
calendar ranges (year ≥ 1, day ≤ days in month). -/
def parseDate (s : Str) : Option (Nat × Nat × Nat) :=
  let ds := s.takeWhile Char.isDigit
  let r1 := s.dropWhile Char.isDigit
  match r1 with
  | c1 :: r2 =>
    if c1 = '/' then
      let ms := r2.takeWhile Char.isDigit
      let r3 := r2.dropWhile Char.isDigit
      match r3 with
      | c2 :: ys =>
        if c2 = '/' then
          if ds.length = 0 ∨ 2 < ds.length then none
          else if ms.length = 0 ∨ 2 < ms.length then none
          else if ys.length = 4 ∧ ys.all Char.isDigit then
            let d := listVal ds
            let m := listVal ms
            let y := listVal ys
            if 1 ≤ d ∧ 1 ≤ m ∧ m ≤ 12 ∧ 1 ≤ y ∧ d ≤ daysInMonth m y then
              some (d, m, y)
            else none
          else none
        else none
      | [] => none
    else none
  | [] => none

/-- `Utils.validate_date` (main.py 188-197): the empty string is valid,
otherwise the string must parse as `%d/%m/%Y`. -/
def validate_date (s : Str) : Bool :=
  if s = [] then true else (parseDate s).isSome

/-- `DateValidator.validate_date` (finaiceiro.py 60-67): must parse as
`%d/%m/%Y` (no empty-string exemption). -/
def validate_date_fin (s : Str) : Bool := (parseDate s).isSome

/-- ASCII digit character of a value < 10. -/
def digitChar (n : Nat) : Char := Char.ofNat (48 + n)

/-- Decimal rendering of a natural number, digit by digit (fuel-based so it
reduces definitionally). Mirrors CPython/glibc `strftime("%Y")`, which does
not zero-pad years below 1000. -/
def natToCharsAux : Nat → Nat → Str → Str
  | 0, n, acc => digitChar (n % 10) :: acc
  | fuel + 1, n, acc =>
    if n < 10 then digitChar n :: acc
    else natToCharsAux fuel (n / 10) (digitChar (n % 10) :: acc)

/-- Decimal rendering of a natural number. -/
def natToChars (n : Nat) : Str := natToCharsAux n n []

/-- Two-digit zero-padded rendering (`strftime("%m")`). -/
def pad2 (n : Nat) : Str := if n < 10 then '0' :: natToChars n else natToChars n

/-- `DateValidator.get_month_year` (finaiceiro.py 82-86):
`strptime` then `strftime("%m/%Y")`. The source raises on unparsable input;
all call sites guard with `validate_date` first, so the `none` branch is
unreachable there. -/
def get_month_year (s : Str) : Str :=
  match parseDate s with
  | some (_, m, y) => pad2 m ++ '/' :: natToChars y
  | none => []

/-- SQLite BINARY collation on text: byte-wise comparison, shorter string
first on a tie (memcmp semantics). On ASCII text, codepoint order equals
byte order. -/
def cmpBytes : Str → Str → Ordering
  | [], [] => .eq
  | [], _ :: _ => .lt
  | _ :: _, [] => .gt
  | a :: as, b :: bs =>
    if a.toNat < b.toNat then .lt
    else if b.toNat < a.toNat then .gt
    else cmpBytes as bs

/-- Python exceptions surfaced by the modelled layer. -/
inductive PyErr where
  | valueError (msg : String)
  | integrityError
  | typeError
  deriving DecidableEq, Repr

/-- A row of the `pessoas` table (models/database.py 46-62).
The two timestamp columns are omitted: no modelled operation reads them. -/
structure Row where
  id : Nat
  nome : Str := []
  cpf : Str := []
  telefone : Str := []
  cidade : Str := []
  bairro : Str := []
  data_nascimento : Str := []
  email : Str := []
  rede_social : Str := []
  observacoes : Str := []
  ativo : Bool := true
  deriving DecidableEq, Repr

/-- The `pessoas` table plus SQLite's rowid counter (AUTOINCREMENT starts
at 1). -/
structure DB where
  rows : List Row
  nextId : Nat
  deriving DecidableEq, Repr

def DB.init : DB := { rows := [], nextId := 1 }

/-- Caller-supplied field map for a person (the `pessoa` dict). A missing
key and an empty string behave alike in every modelled operation. -/
structure PessoaInput where
  nome : Str := []
  cpf : Str := []
  telefone : Str := []
  cidade : Str := []
  bairro : Str := []
  data_nascimento : Str := []
  email : Str := []
  rede_social : Str := []
  observacoes : Str := []
  deriving DecidableEq, Repr

/-- `DatabaseManager.add_pessoa` (models/database.py 131-156): normalizes
cpf and phone, INSERTs. The `cpf TEXT UNIQUE` constraint (schema line 50)
rejects the INSERT with an IntegrityError when any existing row holds the
same cpf string. `ativo` takes its schema DEFAULT 1. -/
def dbAddPessoa (db : DB) (p : PessoaInput) : Except PyErr (Nat × DB) :=
  let cpf' := normalize_cpf p.cpf
  let tel' := normalize_phone p.telefone
  if db.rows.any (fun r => r.cpf == cpf') then .error .integrityError
  else
    .ok (db.nextId,
      { rows := db.rows ++
          [{ id := db.nextId, nome := p.nome, cpf := cpf', telefone := tel',
             cidade := p.cidade, bairro := p.bairro,
             data_nascimento := p.data_nascimento, email := p.email,
             rede_social := p.rede_social, observacoes := p.observacoes,
             ativo := true }],
        nextId := db.nextId + 1 })

/-- `DatabaseManager.update_pessoa` (main.py 370-392; models/database.py
keeps the original CRUD methods): UPDATE ... WHERE id=?, storing the
caller's field values as given (its docstring expects pre-normalized
data). The UNIQUE constraint rejects the new cpf when another row already
holds it; zero matched rows yields `false`, not an error. -/
def dbUpdatePessoa (db : DB) (pid : Nat) (p : PessoaInput) :
    Except PyErr (Bool × DB) :=
  if db.rows.any (fun r => r.id == pid) then
    if db.rows.any (fun r => r.id != pid && r.cpf == p.cpf) then
      .error .integrityError
    else
      .ok (true,
        { db with rows := db.rows.map (fun r =>
            if r.id == pid then
              { r with
                nome := p.nome
                cpf := p.cpf
                telefone := p.telefone
                cidade := p.cidade
                bairro := p.bairro
                data_nascimento := p.data_nascimento
                email := p.email
                rede_social := p.rede_social
                observacoes := p.observacoes }
            else r) })
  else .ok (false, db)

/-- `DatabaseManager.delete_pessoa` (main.py 394-407): soft delete sets
`ativo=0`, hard delete removes the row; returns whether a row matched. -/
def dbDeletePessoa (db : DB) (pid : Nat) (soft : Bool) : Bool × DB :=
  if soft then
    (db.rows.any (fun r => r.id == pid),
      { db with rows := db.rows.map (fun r =>
          if r.id == pid then { r with ativo := false } else r) })
  else
    (db.rows.any (fun r => r.id == pid),
      { db with rows := db.rows.filter (fun r => r.id != pid) })

/-- `PessoaService.cpf_exists` (services/pessoa_service.py 82-95):
`SELECT id FROM pessoas WHERE cpf=?` — with no `ativo` filter. The
`id!=?` clause is appended only when `exclude_id` is truthy (non-None and
non-zero). -/
def cpfExists (db : DB) (cpf : Str) (excludeId : Option Nat) : Bool :=
  let c := normalize_cpf cpf
  if c = [] then false
  else db.rows.any (fun r =>
    r.cpf == c &&
      (match excludeId with
       | none => true
       | some e => if e == 0 then true else r.id != e))

/-- Filter map accepted by `search_pessoas` (the `filters` dict). -/
structure Filters where
  nome : Str := []
  cpf : Str := []
  cidade : Str := []
  mes_aniversario : Str := []
  deriving DecidableEq, Repr

/-- SQL `LIKE '%x%'`: substring containment (empty pattern matches all). -/
def likeContains (hay pat : Str) : Bool := decide (pat <:+: hay)

/-- `substr(data_nascimento, 4, 2)` — 1-based SQLite substr. -/
def birthMonthField (s : Str) : Str := (s.drop 3).take 2

/-- Python `str.zfill(2)`. -/
def zfill2 (s : Str) : Str := if s.length < 2 then '0' :: s else s

/-- Row predicate of the WHERE clause built by `search_pessoas`
(services/pessoa_service.py 50-72). A filter key constrains the result
only when its value is truthy (non-empty). -/
def pessoaMatches (filters : Option Filters) (onlyActive : Bool)
    (r : Row) : Bool :=
  (!onlyActive || r.ativo) &&
    (match filters with
     | none => true
     | some f =>
       (f.nome == [] || likeContains r.nome f.nome) &&
       (f.cpf == [] || likeContains r.cpf (normalize_cpf f.cpf)) &&
       (f.cidade == [] || likeContains r.cidade f.cidade) &&
       (f.mes_aniversario == [] ||
         birthMonthField r.data_nascimento == zfill2 f.mes_aniversario))

/-- `ORDER BY nome` under BINARY collation: stable insertion sort on the
`nome` column. -/
def insertByNome (r : Row) : List Row → List Row
  | [] => [r]
  | x :: xs =>
    if cmpBytes r.nome x.nome = .lt then r :: x :: xs
    else x :: insertByNome r xs

/-- Result list of the `search_pessoas` query. -/
def queryPessoas (db : DB) (filters : Option Filters) (onlyActive : Bool) :
    List Row :=
  (db.rows.filter (pessoaMatches filters onlyActive)).foldr insertByNome []

/-- `PessoaService` state: the database plus the `@lru_cache` attached to
`search_pessoas`. The decorator only ever caches calls whose arguments
hash, i.e. `filters=None`, so the surviving key component is
`only_active`. The 128-entry eviction limit is immaterial here (at most
two keys arise). `DatabaseManager._cache` is omitted: nothing ever reads
it. -/
structure Svc where
  db : DB
  cache : List (Bool × List Row)
  deriving DecidableEq, Repr

def Svc.init : Svc := { db := DB.init, cache := [] }

def cacheLookup (cache : List (Bool × List Row)) (k : Bool) :
    Option (List Row) :=
  match cache.find? (fun e => e.1 == k) with
  | some e => some e.2
  | none => none

/-- `PessoaService.add_pessoa` (services/pessoa_service.py 16-27):
required-name check, cpf check-digit validation, duplicate check via
`cpf_exists`, then delegate to the store. The lru_cache is not touched. -/
def servAddPessoa (s : Svc) (p : PessoaInput) : Except PyErr (Nat × Svc) :=
  if p.nome = [] then .error (.valueError ("O nome é obrigatório."))
  else
    let cpf := normalize_cpf p.cpf
    if cpf ≠ [] ∧ validate_cpf cpf = false then
      .error (.valueError ("CPF inválido."))
    else if cpf ≠ [] ∧ cpfExists s.db cpf none then
      .error (.valueError ("CPF já cadastrado."))
    else
      match dbAddPessoa s.db p with
      | .error e => .error e
      | .ok (i, db') => .ok (i, { s with db := db' })

/-- `PessoaService.update_pessoa` (services/pessoa_service.py 29-40): same
checks with `exclude_id`, then delegates the ORIGINAL dict (the cpf the
store writes is the caller's raw string, not the normalized one). -/
def servUpdatePessoa (s : Svc) (pid : Nat) (p : PessoaInput) :
    Except PyErr (Bool × Svc) :=
  if p.nome = [] then .error (.valueError ("O nome é obrigatório."))
  else
    let cpf := normalize_cpf p.cpf
    if cpf ≠ [] ∧ validate_cpf cpf = false then
      .error (.valueError ("CPF inválido."))
    else if cpf ≠ [] ∧ cpfExists s.db cpf (some pid) then
      .error (.valueError ("CPF já cadastrado para outra pessoa."))
    else
      match dbUpdatePessoa s.db pid p with
      | .error e => .error e
      | .ok (b, db') => .ok (b, { s with db := db' })

/-- `PessoaService.delete_pessoa` (services/pessoa_service.py 42-44): pure
delegation; the search cache is not invalidated. -/
def servDeletePessoa (s : Svc) (pid : Nat) (soft : Bool) : Bool × Svc :=
  let (b, db') := dbDeletePessoa s.db pid soft
  (b, { s with db := db' })

/-- `PessoaService.search_pessoas` (services/pessoa_service.py 46-76),
including its `@lru_cache(maxsize=128)` decorator. The wrapper hashes the
argument tuple before the body runs: a dict argument raises
`TypeError: unhashable type` and no query executes. With `filters=None`
a cached result is returned verbatim if present, else the query runs and
the result is stored. -/
def servSearchPessoas (s : Svc) (filters : Option Filters)
    (onlyActive : Bool) : Except PyErr (List Row × Svc) :=
  match filters with
  | some _ => .error .typeError
  | none =>
    match cacheLookup s.cache onlyActive with
    | some res => .ok (res, s)
    | none =>
      let res := queryPessoas s.db none onlyActive
      .ok (res, { s with cache := (onlyActive, res) :: s.cache })

/-- A row of the `eventos` table (models/database.py 65-78), restricted to
the columns the modelled operations read. -/
structure EventoRow where
  id : Nat
  titulo : Str := []
  descricao : Str := []
  data_evento : Str := []
  tipo : Str := []
  local_ : Str := []
  responsavel : Str := []
  ativo : Bool := true
  deriving DecidableEq, Repr

structure EventoInput where
  titulo : Str := []
  descricao : Str := []
  data_evento : Str := []
  tipo : Str := []
  local_ : Str := []
  responsavel : Str := []
  deriving DecidableEq, Repr

structure EventoDB where
  rows : List EventoRow
  nextId : Nat
  deriving DecidableEq, Repr

def EventoDB.init : EventoDB := { rows := [], nextId := 1 }

/-- `DatabaseManager.add_evento` (main.py 510-533): plain INSERT; `tipo`
falls back to the dict default `'geral'` when the key is missing/empty in
the modelled field map. -/
def dbAddEvento (db : EventoDB) (e : EventoInput) : Nat × EventoDB :=
  (db.nextId,
    { rows := db.rows ++
        [{ id := db.nextId, titulo := e.titulo, descricao := e.descricao,
           data_evento := e.data_evento,
           tipo := if e.tipo = [] then "geral".toList else e.tipo,
           local_ := e.local_, responsavel := e.responsavel,
           ativo := true }],
      nextId := db.nextId + 1 })

/-- `EventoService.add_evento` (services/evento_service.py 15-24):
required-title check, then the event date must be non-empty and
`validate_date`-valid. -/
def servAddEvento (db : EventoDB) (e : EventoInput) :
    Except PyErr (Nat × EventoDB) :=
  if e.titulo = [] then
    .error (.valueError ("O título do evento é obrigatório."))
  else if e.data_evento = [] ∨ validate_date e.data_evento = false then
    .error (.valueError ("Data do evento inválida. Use o formato DD/MM/AAAA."))
  else .ok (dbAddEvento db e)

/-- The composite comparator of `search_eventos`' ORDER BY clause
(services/evento_service.py 50-54, main.py 559-563):
`substr(data_evento,7,4) DESC, substr(data_evento,4,2) DESC,
substr(data_evento,1,2) DESC` under BINARY collation. `eventCmp a b = .lt`
means row `a` is emitted before row `b`. -/
def eventCmp (a b : Str) : Ordering :=
  (cmpBytes ((b.drop 6).take 4) ((a.drop 6).take 4)).then
    ((cmpBytes ((b.drop 3).take 2) ((a.drop 3).take 2)).then
      (cmpBytes (b.take 2) (a.take 2)))

/-- Reference ordering for C8: parse both dates and compare the
`(year, month, day)` triples numerically, descending — exactly how parsed
calendar dates compare chronologically. -/
def chronoCmpDesc (a b : Str) : Ordering :=
  match parseDate a, parseDate b with
  | some (da, ma, ya), some (db', mb, yb) =>
    (compare yb ya).then ((compare mb ma).then (compare db' da))
  | _, _ => .eq

/-- Canonical `DD/MM/YYYY` text: ten characters, slashes at positions 3
and 6, digits elsewhere, denoting a real calendar date. -/
def isCanonicalDate (s : Str) : Bool :=
  match s with
  | [d1, d2, s1, m1, m2, s2, y1, y2, y3, y4] =>
    s1 == '/' && s2 == '/' &&
    [d1, d2, m1, m2, y1, y2, y3, y4].all Char.isDigit &&
    (let d := 10 * charVal d1 + charVal d2
     let m := 10 * charVal m1 + charVal m2
     let y := 1000 * charVal y1 + 100 * charVal y2 + 10 * charVal y3 +
       charVal y4
     decide (1 ≤ d ∧ 1 ≤ m ∧ m ≤ 12 ∧ 1 ≤ y ∧ d ≤ daysInMonth m y))
  | _ => false

/-- `DatabaseManager` backup bookkeeping (main.py 569-608, identical in
models/database.py 208-247). `_last_backup` is the in-memory value read
from the `config` table at construction time; `create_backup` persists a
fresh timestamp to `config` but leaves `_last_backup` untouched. Times
are seconds (exact rationals); `AUTO_BACKUP_INTERVAL` is 24 hours. -/
structure BackupState where
  configLastBackup : Option ℚ
  lastBackupMem : Option ℚ
  deriving DecidableEq

def AUTO_BACKUP_INTERVAL : ℚ := 24

/-- `DatabaseManager.__init__` + `_get_last_backup_time`: the in-memory
timestamp is loaded from the persisted config. -/
def initManager (configLastBackup : Option ℚ) : BackupState :=
  { configLastBackup := configLastBackup, lastBackupMem := configLastBackup }

/-- `DatabaseManager.create_backup` (main.py 569-582): copies the file,
prunes old backups, and persists `last_backup := now` — without updating
`self._last_backup`. -/
def create_backup (s : BackupState) (now : ℚ) : BackupState :=
  { s with configLastBackup := some now }

/-- `DatabaseManager.should_backup` (main.py 602-608): true when the
in-memory `_last_backup` is unset, or `(now - _last_backup)/3600` hours
have reached the configured interval. -/
def should_backup (s : BackupState) (now : ℚ) : Bool :=
  match s.lastBackupMem with
  | none => true
  | some t => decide (AUTO_BACKUP_INTERVAL ≤ (now - t) / 3600)

/-- A row of the `expenses` table (finaiceiro.py 152-163), columns the
ledger operations touch. The machine float `amount` is modelled as an
exact rational (the value `CurrencyFormatter.parse_value` returned). -/
structure ExpenseRow where
  id : Nat
  date : Str := []
  category : Str := []
  description : Str := []
  amount : ℚ := 0
  month_year : Str := []
  deriving DecidableEq

/-- A row of the `contributions` table (finaiceiro.py 165-176). -/
structure ContribRow where
  id : Nat
  date : Str := []
  type_ : Str := []
  contributor : Str := []
  amount : ℚ := 0
  month_year : Str := []
  deriving DecidableEq

structure LedgerState where
  expenses : List ExpenseRow
  contributions : List ContribRow
  nextEid : Nat
  nextCid : Nat
  deriving DecidableEq

def LedgerState.init : LedgerState :=
  { expenses := [], contributions := [], nextEid := 1, nextCid := 1 }

/-- `IBVRDFinanceApp.add_expense` (finaiceiro.py 1049-1099): rejects an
empty category or date, a date that fails `DateValidator.validate_date`,
and a parsed amount ≤ 0; a rejected add leaves the tables unchanged (the
GUI shows an error box and returns). On success it inserts the row with
`month_year := DateValidator.get_month_year(date)`. -/
def add_expense (st : LedgerState) (category : Str) (amount : ℚ)
    (date : Str) (description : Str) : LedgerState :=
  if category = [] then st
  else if date = [] then st
  else if validate_date_fin date = false then st
  else if amount ≤ 0 then st
  else
    { st with
      expenses := st.expenses ++
        [{ id := st.nextEid, date := date, category := category,
           description := description, amount := amount,
           month_year := get_month_year date }]
      nextEid := st.nextEid + 1 }

/-- `IBVRDFinanceApp.add_contribution` (finaiceiro.py 1125-1175): same
checks for type, date and amount; inserts into `contributions`. -/
def add_contribution (st : LedgerState) (type_ : Str) (amount : ℚ)
    (date : Str) (contributor : Str) : LedgerState :=
  if type_ = [] then st
  else if date = [] then st
  else if validate_date_fin date = false then st
  else if amount ≤ 0 then st
  else
    { st with
      contributions := st.contributions ++
        [{ id := st.nextCid, date := date, type_ := type_,
           contributor := contributor, amount := amount,
           month_year := get_month_year date }]
      nextCid := st.nextCid + 1 }

/-- `IBVRDFinanceApp.delete_expense` (finaiceiro.py 1101-1123):
`DELETE FROM expenses WHERE id = ?`. -/
def delete_expense (st : LedgerState) (eid : Nat) : LedgerState :=
  { st with expenses := st.expenses.filter (fun r => r.id != eid) }

/-- `IBVRDFinanceApp.delete_contribution` (finaiceiro.py 1177-1199). -/
def delete_contribution (st : LedgerState) (cid : Nat) : LedgerState :=
  { st with contributions := st.contributions.filter (fun r => r.id != cid) }

/-- A ledger operation (the adds/deletes reachable from the GUI). -/
inductive LedgerOp where
  | addExp (category : Str) (amount : ℚ) (date : Str) (description : Str)
  | addContrib (type_ : Str) (amount : ℚ) (date : Str) (contributor : Str)
  | delExp (eid : Nat)
  | delContrib (cid : Nat)

def applyLedgerOp (st : LedgerState) : LedgerOp → LedgerState
  | .addExp c a d de => add_expense st c a d de
  | .addContrib t a d co => add_contribution st t a d co
  | .delExp i => delete_expense st i
  | .delContrib i => delete_contribution st i

def runLedger (ops : List LedgerOp) : LedgerState :=
  ops.foldl applyLedgerOp LedgerState.init

/-- Violation detector for the active-uniqueness invariant: two distinct
active rows whose normalized documents are equal and non-empty. -/
def hasDupActiveCpf (db : DB) : Bool :=
  db.rows.any (fun r1 => db.rows.any (fun r2 =>
    r1.id != r2.id && r1.ativo && r2.ativo &&
    (normalize_cpf r1.cpf == normalize_cpf r2.cpf) &&
    (normalize_cpf r1.cpf != [])))

/-- Concrete run for C1: create a person without a document, set the
document through `update_pessoa` (stored raw), then add a second person
with the same digits. -/
def c1trace : Except PyErr Svc := do
  let (_, s1) ← servAddPessoa Svc.init { nome := ("Ana".toList) }
  let (_, s2) ← servUpdatePessoa s1 1
    { nome := ("Ana".toList), cpf := ("111.444.777-35".toList) }
  let (_, s3) ← servAddPessoa s2
    { nome := ("Bia".toList), cpf := ("11144477735".toList) }
  pure s3

/-- Concrete run for C2: add a person with a document, soft-delete them,
record the surviving rows, and retry the add with the same document. -/
def c2trace : Except PyErr (List (Str × Bool) × Except PyErr Nat) := do
  let (_, s1) ← servAddPessoa Svc.init
    { nome := ("Ana".toList), cpf := ("111.444.777-35".toList) }
  let (_, s2) := servDeletePessoa s1 1 true
  pure (s2.db.rows.map (fun r => (r.cpf, r.ativo)),
    (servAddPessoa s2
      { nome := ("Bia".toList), cpf := ("111.444.777-35".toList) }).map
      (fun x => x.1))

/-- The single row created by the C3 run, in its pre-delete (active)
state. -/
def c3row : Row := { id := 1, nome := ("Ana".toList) }

/-- Concrete run for C3: search (fills the cache), soft-delete the one
matching row, search again with the same signature, and also record what
a fresh query over the post-delete table returns. -/
def c3trace : Except PyErr (List Row × List Row × List Row) := do
  let (_, s1) ← servAddPessoa Svc.init { nome := ("Ana".toList) }
  let (res1, s2) ← servSearchPessoas s1 none true
  let (_, s3) := servDeletePessoa s2 1 true
  let (res2, _) ← servSearchPessoas s3 none true
  pure (res1, res2, queryPessoas s3.db none true)

/-- Concrete run for C6: add a person whose birth date is non-empty and
not a valid date. -/
def c6trace : Except PyErr (Nat × List Str) :=
  (servAddPessoa Svc.init
    { nome := ("Ana".toList),
      data_nascimento := ("99/99/9999".toList) }).map
    (fun x => (x.1, x.2.db.rows.map (fun r => r.data_nascimento)))

/-- The claim's check-digit mapping: remainder `11 - (s % 11)`, sent to 0
when it is 10 or more. -/
def specCheckMap (s : Nat) : Nat :=
  let r := 11 - s % 11
  if 10 ≤ r then 0 else r

/-- First check digit as worded in the claim: weights 10..2 over the
first 9 digits. -/
def specCheck1 (d : Str) : Nat :=
  specCheckMap (∑ i ∈ Finset.range 9, charVal (d.getD i '0') * (10 - i))

/-- Second check digit as worded in the claim: weights 11..2 over the
first 10 digits. -/
def specCheck2 (d : Str) : Nat :=
  specCheckMap (∑ i ∈ Finset.range 10, charVal (d.getD i '0') * (11 - i))

/-- The C9 row invariant for an expense row: positive amount, a parsable
date, and a `month_year` derived from that date's month and year; on a
canonical `DD/MM/YYYY` date whose year is at least 1000 that derivation
is exactly the `MM/YYYY` suffix of the date string. -/
def expenseOK (r : ExpenseRow) : Prop :=
  0 < r.amount ∧ ∃ d m y, parseDate r.date = some (d, m, y) ∧
    r.month_year = pad2 m ++ '/' :: natToChars y ∧
    (isCanonicalDate r.date = true → 1000 ≤ y → r.month_year = r.date.drop 3)

/-- The C9 row invariant for a contribution row. -/
def contribOK (r : ContribRow) : Prop :=
  0 < r.amount ∧ ∃ d m y, parseDate r.date = some (d, m, y) ∧
    r.month_year = pad2 m ++ '/' :: natToChars y ∧
    (isCanonicalDate r.date = true → 1000 ≤ y → r.month_year = r.date.drop 3)

/-- All ledger rows satisfy their row invariant. -/
def ledgerInv (st : LedgerState) : Prop :=
  (∀ r ∈ st.expenses, expenseOK r) ∧ (∀ r ∈ st.contributions, contribOK r)

/-!
Helper lemmas shared by the claim theorems.
-/

lemma normalize_cpf_idem (s : Str) :
    normalize_cpf (normalize_cpf s) = normalize_cpf s := by
  simp [normalize_cpf, List.filter_filter]

lemma servAddPessoa_cache (s : Svc) (p : PessoaInput) (i : Nat) (s' : Svc)
    (hok : servAddPessoa s p = .ok (i, s')) : s'.cache = s.cache := by
  simp only [servAddPessoa] at hok
  split at hok
  · simp at hok
  · split at hok
    · simp at hok
    · split at hok
      · simp at hok
      · split at hok
        · simp at hok
        · simp only [Except.ok.injEq, Prod.mk.injEq] at hok
          rw [← hok.2]

lemma servUpdatePessoa_cache (s : Svc) (pid : Nat) (p : PessoaInput)
    (b : Bool) (s' : Svc)
    (hok : servUpdatePessoa s pid p = .ok (b, s')) : s'.cache = s.cache := by
  simp only [servUpdatePessoa] at hok
  split at hok
  · simp at hok
  · split at hok
    · simp at hok
    · split at hok
      · simp at hok
      · split at hok
        · simp at hok
        · rename_i x heq
          simp only [Except.ok.injEq, Prod.mk.injEq] at hok
          rw [← hok.2]

lemma isDigit_bounds (c : Char) (h : c.isDigit = true) :
    48 ≤ c.toNat ∧ c.toNat ≤ 57 := by
  simp [Char.isDigit] at h
  obtain ⟨h1, h2⟩ := h
  constructor
  · exact h1
  · exact h2

lemma listVal_aux (l : Str) (a : Nat) :
    l.foldl (fun a c => 10 * a + charVal c) a =
      a * 10 ^ l.length + l.foldl (fun a c => 10 * a + charVal c) 0 := by
  induction l generalizing a with
  | nil => simp
  | cons c l ih =>
    simp only [List.foldl_cons, List.length_cons]
    rw [ih (10 * a + charVal c), ih (10 * 0 + charVal c)]
    ring

lemma listVal_cons (c : Char) (l : Str) :
    listVal (c :: l) = charVal c * 10 ^ l.length + listVal l := by
  simp only [listVal, List.foldl_cons]
  rw [listVal_aux l (10 * 0 + charVal c)]
  ring

lemma charVal_le_nine (c : Char) (h : c.isDigit = true) : charVal c ≤ 9 := by
  obtain ⟨h1, h2⟩ := isDigit_bounds c h
  simp only [charVal]
  omega

lemma listVal_lt (l : Str) (h : ∀ c ∈ l, c.isDigit) :
    listVal l < 10 ^ l.length := by
  induction l with
  | nil => simp [listVal]
  | cons c l ih =>
    rw [listVal_cons, List.length_cons, pow_succ]
    have hc : charVal c ≤ 9 := charVal_le_nine c (h c (List.mem_cons_self c l))
    have hl : listVal l < 10 ^ l.length := ih (fun x hx => h x (List.mem_cons_of_mem c hx))
    calc charVal c * 10 ^ l.length + listVal l
        < charVal c * 10 ^ l.length + 10 ^ l.length := Nat.add_lt_add_left hl _
      _ = (charVal c + 1) * 10 ^ l.length := by ring
      _ ≤ 10 * 10 ^ l.length := Nat.mul_le_mul_right _ (by omega)
      _ = 10 ^ l.length * 10 := by ring

lemma cmpBytes_digits : ∀ (l1 l2 : Str), l1.length = l2.length →
    (∀ c ∈ l1, c.isDigit) → (∀ c ∈ l2, c.isDigit) →
    cmpBytes l1 l2 = compare (listVal l1) (listVal l2)
  | [], [], _, _, _ => by
    simp only [cmpBytes, listVal, List.foldl_nil]
    exact (Nat.compare_eq_eq.mpr rfl).symm
  | [], b :: bs, h, _, _ => by simp at h
  | a :: as, [], h, _, _ => by simp at h
  | a :: as, b :: bs, hlen, h1, h2 => by
    have hlen' : as.length = bs.length := by simpa using hlen
    have ha : a.isDigit = true := h1 a (List.mem_cons_self a as)
    have hb : b.isDigit = true := h2 b (List.mem_cons_self b bs)
    have has : ∀ c ∈ as, c.isDigit := fun c hc => h1 c (List.mem_cons_of_mem a hc)
    have hbs : ∀ c ∈ bs, c.isDigit := fun c hc => h2 c (List.mem_cons_of_mem b hc)
    have hba : 48 ≤ a.toNat ∧ a.toNat ≤ 57 := isDigit_bounds a ha
    have hbb : 48 ≤ b.toNat ∧ b.toNat ≤ 57 := isDigit_bounds b hb
    have hlta : listVal as < 10 ^ as.length := listVal_lt as has
    have hltb : listVal bs < 10 ^ bs.length := listVal_lt bs hbs
    rw [listVal_cons, listVal_cons, ← hlen']
    simp only [cmpBytes]
    by_cases hab : a.toNat < b.toNat
    · rw [if_pos hab]
      have hv : charVal a + 1 ≤ charVal b := by simp only [charVal]; omega
      refine (Nat.compare_eq_lt.mpr ?_).symm
      calc charVal a * 10 ^ as.length + listVal as
          < charVal a * 10 ^ as.length + 10 ^ as.length :=
            Nat.add_lt_add_left hlta _
        _ = (charVal a + 1) * 10 ^ as.length := by ring
        _ ≤ charVal b * 10 ^ as.length := Nat.mul_le_mul_right _ hv
        _ ≤ charVal b * 10 ^ as.length + listVal bs := Nat.le_add_right _ _
    · rw [if_neg hab]
      by_cases hba2 : b.toNat < a.toNat
      · rw [if_pos hba2]
        have hv : charVal b + 1 ≤ charVal a := by simp only [charVal]; omega
        refine (Nat.compare_eq_gt.mpr ?_).symm
        calc charVal b * 10 ^ as.length + listVal bs
            < charVal b * 10 ^ as.length + 10 ^ as.length := by
              rw [← hlen'] at hltb
              exact Nat.add_lt_add_left hltb _
          _ = (charVal b + 1) * 10 ^ as.length := by ring
          _ ≤ charVal a * 10 ^ as.length := Nat.mul_le_mul_right _ hv
          _ ≤ charVal a * 10 ^ as.length + listVal as := Nat.le_add_right _ _
      · rw [if_neg hba2]
        have hveq : charVal a = charVal b := by simp only [charVal]; omega
        rw [hveq]
        rw [cmpBytes_digits as bs hlen' has hbs]
        rcases hc : compare (listVal as) (listVal bs) with _ | _ | _
        · refine (Nat.compare_eq_lt.mpr ?_).symm
          exact Nat.add_lt_add_left (Nat.compare_eq_lt.mp hc) _
        · refine (Nat.compare_eq_eq.mpr ?_).symm
          rw [Nat.compare_eq_eq.mp hc]
        · refine (Nat.compare_eq_gt.mpr ?_).symm
          exact Nat.add_lt_add_left (Nat.compare_eq_gt.mp hc) _

lemma listVal_two (c1 c2 : Char) :
    listVal [c1, c2] = 10 * charVal c1 + charVal c2 := by
  simp [listVal]

lemma listVal_four (c1 c2 c3 c4 : Char) :
    listVal [c1, c2, c3, c4] =
      1000 * charVal c1 + 100 * charVal c2 + 10 * charVal c3 + charVal c4 := by
  simp [listVal]
  ring

lemma slash_not_digit : ('/' : Char).isDigit = false := rfl

lemma parseDate_canonical (d1 d2 m1 m2 y1 y2 y3 y4 : Char)
    (hd1 : d1.isDigit = true) (hd2 : d2.isDigit = true)
    (hm1 : m1.isDigit = true) (hm2 : m2.isDigit = true)
    (hy1 : y1.isDigit = true) (hy2 : y2.isDigit = true)
    (hy3 : y3.isDigit = true) (hy4 : y4.isDigit = true)
    (hcal : 1 ≤ listVal [d1, d2] ∧ 1 ≤ listVal [m1, m2] ∧
      listVal [m1, m2] ≤ 12 ∧ 1 ≤ listVal [y1, y2, y3, y4] ∧
      listVal [d1, d2] ≤ daysInMonth (listVal [m1, m2]) (listVal [y1, y2, y3, y4])) :
    parseDate [d1, d2, '/', m1, m2, '/', y1, y2, y3, y4] =
      some (listVal [d1, d2], listVal [m1, m2], listVal [y1, y2, y3, y4]) := by
  simp only [parseDate, List.takeWhile_cons, List.dropWhile_cons, hd1, hd2,
    hm1, hm2, hy1, hy2, hy3, hy4, slash_not_digit, Bool.false_eq_true,
    List.takeWhile_nil, List.dropWhile_nil, ite_true, ite_false, if_true,
    if_false, reduceIte]
  rw [if_neg (by simp), if_neg (by simp),
    if_pos (by simp [hy1, hy2, hy3, hy4]), if_pos hcal]

lemma canonical_shape (s : Str) (h : isCanonicalDate s = true) :
    ∃ d1 d2 m1 m2 y1 y2 y3 y4,
      s = [d1, d2, '/', m1, m2, '/', y1, y2, y3, y4] ∧
      d1.isDigit = true ∧ d2.isDigit = true ∧ m1.isDigit = true ∧
      m2.isDigit = true ∧ y1.isDigit = true ∧ y2.isDigit = true ∧
      y3.isDigit = true ∧ y4.isDigit = true ∧
      1 ≤ listVal [d1, d2] ∧ 1 ≤ listVal [m1, m2] ∧
      listVal [m1, m2] ≤ 12 ∧ 1 ≤ listVal [y1, y2, y3, y4] ∧
      listVal [d1, d2] ≤
        daysInMonth (listVal [m1, m2]) (listVal [y1, y2, y3, y4]) := by
  rcases s with _ | ⟨d1, _ | ⟨d2, _ | ⟨s1, _ | ⟨m1, _ | ⟨m2, _ | ⟨s2, _ |
    ⟨y1, _ | ⟨y2, _ | ⟨y3, _ | ⟨y4, _ | ⟨z, rest⟩⟩⟩⟩⟩⟩⟩⟩⟩⟩⟩ <;>
    try exact absurd h Bool.false_ne_true
  simp only [isCanonicalDate, List.all_cons, List.all_nil, Bool.and_true,
    Bool.and_eq_true, beq_iff_eq, decide_eq_true_eq] at h
  obtain ⟨⟨⟨hs1, hs2⟩, hd1, hd2, hm1, hm2, hy1, hy2, hy3, hy4⟩, hcal⟩ := h
  subst hs1
  subst hs2
  refine ⟨d1, d2, m1, m2, y1, y2, y3, y4, rfl, hd1, hd2, hm1, hm2, hy1, hy2,
    hy3, hy4, ?_, ?_, ?_, ?_, ?_⟩ <;>
    simp only [listVal_two, listVal_four] <;> tauto

lemma digitChar_charVal (c : Char) (h : c.isDigit = true) :
    digitChar (charVal c) = c := by
  obtain ⟨h1, h2⟩ := isDigit_bounds c h
  simp only [digitChar, charVal]
  have e : 48 + (c.toNat - 48) = c.toNat := by omega
  rw [e]
  exact Char.ofNat_toNat c

lemma natToCharsAux_small (fuel n : Nat) (acc : Str) (h : n < 10) :
    natToCharsAux fuel n acc = digitChar n :: acc := by
  cases fuel with
  | zero =>
    simp only [natToCharsAux]
    rw [Nat.mod_eq_of_lt h]
  | succ k =>
    simp only [natToCharsAux]
    rw [if_pos h]

lemma natToCharsAux_step (fuel n : Nat) (acc : Str) (h : 10 ≤ n) :
    natToCharsAux (fuel + 1) n acc =
      natToCharsAux fuel (n / 10) (digitChar (n % 10) :: acc) := by
  simp only [natToCharsAux]
  rw [if_neg (by omega)]

lemma natToChars_small (n : Nat) (h : n < 10) :
    natToChars n = [digitChar n] :=
  natToCharsAux_small n n [] h

lemma natToChars_two (n : Nat) (h1 : 10 ≤ n) (h2 : n ≤ 99) :
    natToChars n = [digitChar (n / 10), digitChar (n % 10)] := by
  obtain ⟨m, rfl⟩ : ∃ m, n = m + 1 := ⟨n - 1, by omega⟩
  rw [natToChars, natToCharsAux_step m (m + 1) [] h1,
    natToCharsAux_small m ((m + 1) / 10) _ (by omega)]

lemma natToChars_four (n : Nat) (h1 : 1000 ≤ n) (h2 : n ≤ 9999) :
    natToChars n = [digitChar (n / 1000), digitChar (n / 100 % 10),
      digitChar (n / 10 % 10), digitChar (n % 10)] := by
  obtain ⟨m, rfl⟩ : ∃ m, n = m + 3 := ⟨n - 3, by omega⟩
  rw [natToChars, natToCharsAux_step (m + 2) (m + 3) [] (by omega),
    natToCharsAux_step (m + 1) ((m + 3) / 10) _ (by omega),
    natToCharsAux_step m ((m + 3) / 10 / 10) _ (by omega),
    natToCharsAux_small m ((m + 3) / 10 / 10 / 10) _ (by omega)]
  have e1 : (m + 3) / 10 / 10 / 10 = (m + 3) / 1000 := by
    rw [Nat.div_div_eq_div_mul, Nat.div_div_eq_div_mul]
  have e2 : (m + 3) / 10 / 10 % 10 = (m + 3) / 100 % 10 := by
    rw [Nat.div_div_eq_div_mul]
  rw [e1, e2]

lemma pad2_digits (m1 m2 : Char) (h1 : m1.isDigit = true)
    (h2 : m2.isDigit = true) :
    pad2 (10 * charVal m1 + charVal m2) = [m1, m2] := by
  have b1 := isDigit_bounds m1 h1
  have b2 := isDigit_bounds m2 h2
  have hv1 : charVal m1 ≤ 9 := charVal_le_nine m1 h1
  have hv2 : charVal m2 ≤ 9 := charVal_le_nine m2 h2
  by_cases hz : charVal m1 = 0
  · have hlt : 10 * charVal m1 + charVal m2 < 10 := by omega
    rw [pad2, if_pos hlt, natToChars_small _ hlt]
    have e1 : (10 * charVal m1 + charVal m2) = charVal m2 := by omega
    rw [e1, digitChar_charVal m2 h2]
    have e2 : m1 = '0' := by
      have := digitChar_charVal m1 h1
      rw [hz] at this
      rw [← this]
      rfl
    rw [e2]
  · have hge : 10 ≤ 10 * charVal m1 + charVal m2 := by omega
    rw [pad2, if_neg (by omega),
      natToChars_two _ hge (by omega)]
    have e1 : (10 * charVal m1 + charVal m2) / 10 = charVal m1 := by omega
    have e2 : (10 * charVal m1 + charVal m2) % 10 = charVal m2 := by omega
    rw [e1, e2, digitChar_charVal m1 h1, digitChar_charVal m2 h2]

lemma natToChars_year (y1 y2 y3 y4 : Char)
    (h1 : y1.isDigit = true) (h2 : y2.isDigit = true)
    (h3 : y3.isDigit = true) (h4 : y4.isDigit = true)
    (hy : 1000 ≤ listVal [y1, y2, y3, y4]) :
    natToChars (listVal [y1, y2, y3, y4]) = [y1, y2, y3, y4] := by
  have hv1 : charVal y1 ≤ 9 := charVal_le_nine y1 h1
  have hv2 : charVal y2 ≤ 9 := charVal_le_nine y2 h2
  have hv3 : charVal y3 ≤ 9 := charVal_le_nine y3 h3
  have hv4 : charVal y4 ≤ 9 := charVal_le_nine y4 h4
  rw [listVal_four] at hy ⊢
  rw [natToChars_four _ hy (by omega)]
  have e1 : (1000 * charVal y1 + 100 * charVal y2 + 10 * charVal y3 +
      charVal y4) / 1000 = charVal y1 := by omega
  have e2 : (1000 * charVal y1 + 100 * charVal y2 + 10 * charVal y3 +
      charVal y4) / 100 % 10 = charVal y2 := by omega
  have e3 : (1000 * charVal y1 + 100 * charVal y2 + 10 * charVal y3 +
      charVal y4) / 10 % 10 = charVal y3 := by omega
  have e4 : (1000 * charVal y1 + 100 * charVal y2 + 10 * charVal y3 +
      charVal y4) % 10 = charVal y4 := by omega
  rw [e1, e2, e3, e4, digitChar_charVal y1 h1, digitChar_charVal y2 h2,
    digitChar_charVal y3 h3, digitChar_charVal y4 h4]

lemma month_year_spec (dstr : Str) (hval : validate_date_fin dstr = true) :
    ∃ d m y, parseDate dstr = some (d, m, y) ∧
      get_month_year dstr = pad2 m ++ '/' :: natToChars y ∧
      (isCanonicalDate dstr = true → 1000 ≤ y →
        get_month_year dstr = dstr.drop 3) := by
  have hps : (parseDate dstr).isSome := hval
  obtain ⟨⟨d, m, y⟩, hp⟩ := Option.isSome_iff_exists.mp hps
  refine ⟨d, m, y, hp, by simp [get_month_year, hp], ?_⟩
  intro hcan hy
  obtain ⟨d1, d2, m1, m2, y1, y2, y3, y4, heq, hd1, hd2, hm1, hm2, hy1, hy2,
    hy3, hy4, hc1, hc2, hc3, hc4, hc5⟩ := canonical_shape dstr hcan
  subst heq
  have hp2 := parseDate_canonical d1 d2 m1 m2 y1 y2 y3 y4 hd1 hd2 hm1 hm2
    hy1 hy2 hy3 hy4 ⟨hc1, hc2, hc3, hc4, hc5⟩
  rw [hp] at hp2
  have h3 : (d, m, y) =
      (listVal [d1, d2], listVal [m1, m2], listVal [y1, y2, y3, y4]) :=
    Option.some.inj hp2
  simp only [Prod.mk.injEq] at h3
  obtain ⟨hdq, hmq, hyq⟩ := h3
  subst hmq
  subst hyq
  simp only [get_month_year, hp]
  rw [listVal_two, pad2_digits m1 m2 hm1 hm2,
    natToChars_year y1 y2 y3 y4 hy1 hy2 hy3 hy4 hy]
  rfl

lemma applyLedgerOp_inv (st : LedgerState) (op : LedgerOp)
    (h : ledgerInv st) : ledgerInv (applyLedgerOp st op) := by
  obtain ⟨he, hc⟩ := h
  cases op with
  | addExp cat amt dstr desc =>
    simp only [applyLedgerOp, add_expense]
    split
    · exact ⟨he, hc⟩
    · split
      · exact ⟨he, hc⟩
      · split
        · exact ⟨he, hc⟩
        · split
          · exact ⟨he, hc⟩
          · rename_i hcat hdat hval hamt
            refine ⟨?_, hc⟩
            intro r hr
            rw [List.mem_append] at hr
            rcases hr with hr | hr
            · exact he r hr
            · rw [List.mem_singleton] at hr
              subst hr
              refine ⟨by simpa using lt_of_not_le (by simpa using hamt), ?_⟩
              have hv : validate_date_fin dstr = true := by
                rcases hb : validate_date_fin dstr with _ | _
                · exact absurd hb hval
                · rfl
              obtain ⟨d, m, y, hp, hmy, hcanon⟩ := month_year_spec dstr hv
              exact ⟨d, m, y, hp, hmy, hcanon⟩
  | addContrib t amt dstr co =>
    simp only [applyLedgerOp, add_contribution]
    split
    · exact ⟨he, hc⟩
    · split
      · exact ⟨he, hc⟩
      · split
        · exact ⟨he, hc⟩
        · split
          · exact ⟨he, hc⟩
          · rename_i ht hdat hval hamt
            refine ⟨he, ?_⟩
            intro r hr
            rw [List.mem_append] at hr
            rcases hr with hr | hr
            · exact hc r hr
            · rw [List.mem_singleton] at hr
              subst hr
              refine ⟨by simpa using lt_of_not_le (by simpa using hamt), ?_⟩
              have hv : validate_date_fin dstr = true := by
                rcases hb : validate_date_fin dstr with _ | _
                · exact absurd hb hval
                · rfl
              obtain ⟨d, m, y, hp, hmy, hcanon⟩ := month_year_spec dstr hv
              exact ⟨d, m, y, hp, hmy, hcanon⟩
  | delExp i =>
    refine ⟨fun r hr => he r (List.mem_of_mem_filter hr), hc⟩
  | delContrib i =>
    refine ⟨he, fun r hr => hc r (List.mem_of_mem_filter hr)⟩

/-!
Claim theorems.
-/

/-- Claim C1 (code_bug evaluation): starting from the empty schema, the
sequence add (no document) / update (setting document "111.444.777-35") /
add (document "11144477735") leaves two distinct active rows sharing the
same non-empty normalized document number — `update_pessoa` stores the
caller's raw document string although the store expects normalized data,
so the claimed invariant is violated. -/
theorem c1_update_pessoa_breaks_active_cpf_uniqueness : c1trace.map (fun s => hasDupActiveCpf s.db) = .ok true := by decide

/-- Claim C2 counterexample: after adding a person with document
111.444.777-35 and soft-deleting them, the only record holding that
document is inactive, yet re-adding the same document raises the
duplicate-document error instead of succeeding — `cpf_exists` has no
`ativo` filter (and the schema's UNIQUE constraint is also global). -/
theorem c2_soft_deleted_document_still_blocks_add :
    c2trace = .ok ([(("11144477735".toList), false)],
      .error (.valueError ("CPF já cadastrado."))) := by decide

/-- Claim C2 (amended): `add_pessoa` with a valid non-empty document whose
normalization equals the stored document of ANY existing record — active
or soft-deleted — raises the duplicate-document business error before
touching the store. Soft deletion does not unblock the add. -/
theorem c2_add_with_existing_document_rejected (s : Svc) (p : PessoaInput)
    (hn : p.nome ≠ [])
    (hv : validate_cpf (normalize_cpf p.cpf) = true)
    (hne : normalize_cpf p.cpf ≠ [])
    (hex : ∃ r ∈ s.db.rows, r.cpf = normalize_cpf p.cpf) :
    servAddPessoa s p = .error (.valueError ("CPF já cadastrado.")) := by
  obtain ⟨r, hr, hcpf⟩ := hex
  have hex' : cpfExists s.db (normalize_cpf p.cpf) none = true := by
    simp only [cpfExists, normalize_cpf_idem]
    rw [if_neg hne]
    exact List.any_eq_true.mpr ⟨r, hr, by simp [hcpf]⟩
  simp [servAddPessoa, hn, hv, hne, hex']

/-- Witness for C2: concrete instantiation with a single soft-deleted
record holding the colliding document. -/
theorem c2_add_with_existing_document_rejected_witness :
    ({ nome := ("Bia".toList), cpf := ("111.444.777-35".toList) } :
        PessoaInput).nome ≠ [] ∧
    servAddPessoa
      { db :=
          { rows := [{ id := 1
                       nome := ("Ana".toList)
                       cpf := ("11144477735".toList)
                       ativo := false }]
            nextId := 2 }
        cache := [] }
      { nome := ("Bia".toList), cpf := ("111.444.777-35".toList) } =
      .error (.valueError ("CPF já cadastrado.")) :=
  ⟨by decide,
    c2_add_with_existing_document_rejected _ _ (by decide) (by decide) (by decide)
      ⟨{ id := 1
         nome := ("Ana".toList)
         cpf := ("11144477735".toList)
         ativo := false }, by decide, by decide⟩⟩

/-- Claim C4 (code_bug evaluation): `create_backup` persists the new
timestamp to the config table but never refreshes the in-memory
`_last_backup` that `should_backup` reads, so `should_backup` is entirely
unaffected by `create_backup`; in particular, on a manager constructed
with no prior backup timestamp, `should_backup` still returns true
immediately after `create_backup` — the claim says it must return
false. -/
theorem c4_should_backup_unchanged_by_create_backup :
    (∀ (s : BackupState) (t u : ℚ),
        should_backup (create_backup s t) u = should_backup s u) ∧
    should_backup (create_backup (initManager none) 0) 0 = true :=
  ⟨fun _ _ _ => rfl, rfl⟩

/-- Claim C3 counterexample: search (filters=None, only_active=True) caches
the one active row; a soft delete empties the active set; repeating the
search with the same signature returns the stale cached row while a fresh
query returns nothing — the post-write search does not reflect the
write. -/
theorem c3_stale_cache_served_after_delete :
    c3trace = .ok ([c3row], [c3row], []) ∧ c3row.ativo = true := by decide

/-- Claim C3 (amended): the service's `lru_cache` is never invalidated:
whenever the cache holds an entry for a signature, a search with that
signature after any `add_pessoa`/`update_pessoa`/`delete_pessoa` still
returns the previously cached (pre-write) result. -/
theorem c3_cached_search_ignores_writes (s : Svc) (b : Bool) (v : List Row)
    (h : cacheLookup s.cache b = some v) :
    (∀ pid soft,
      servSearchPessoas (servDeletePessoa s pid soft).2 none b =
        .ok (v, (servDeletePessoa s pid soft).2)) ∧
    (∀ p i s', servAddPessoa s p = .ok (i, s') →
      servSearchPessoas s' none b = .ok (v, s')) ∧
    (∀ pid p bb s', servUpdatePessoa s pid p = .ok (bb, s') →
      servSearchPessoas s' none b = .ok (v, s')) := by
  refine ⟨fun pid soft => ?_, fun p i s' hok => ?_, fun pid p bb s' hok => ?_⟩
  · have hc : (servDeletePessoa s pid soft).2.cache = s.cache := rfl
    simp [servSearchPessoas, hc, h]
  · have hc : s'.cache = s.cache := servAddPessoa_cache s p i s' hok
    simp [servSearchPessoas, hc, h]
  · have hc : s'.cache = s.cache := servUpdatePessoa_cache s pid p bb s' hok
    simp [servSearchPessoas, hc, h]

/-- Witness for C3: a concrete service state with a cached result; after a
soft delete the same search still returns the cached row. -/
theorem c3_cached_search_ignores_writes_witness :
    cacheLookup ({ db := { rows := [], nextId := 1 }, cache := [(true, [c3row])] } : Svc).cache true = some [c3row] ∧
    servSearchPessoas
      (servDeletePessoa
        { db := { rows := [], nextId := 1 }, cache := [(true, [c3row])] }
        1 true).2 none true =
      .ok ([c3row],
        (servDeletePessoa
          { db := { rows := [], nextId := 1 }, cache := [(true, [c3row])] }
          1 true).2) :=
  ⟨by decide, (c3_cached_search_ignores_writes _ true [c3row] (by decide)).1 1 true⟩

/-- Claim C5: for every string whose normalization is an 11-digit string
not consisting of one repeated digit, `validate_cpf` returns true iff
digit 10 equals the first check digit (weights 10..2 over the first 9
digits, sum mod 11, remainder 11-r mapped to 0 when ≥ 10) and digit 11
equals the second check digit (weights 11..2 over the first 10 digits,
same rule); it returns false when the normalized length is not 11 or all
digits are identical. -/
theorem c5_validate_cpf_check_digit_characterization (s : Str) :
    ((normalize_cpf s).length = 11 →
      normalize_cpf s ≠ List.replicate 11 ((normalize_cpf s).headD '0') →
      (validate_cpf s = true ↔
        charVal ((normalize_cpf s).getD 9 '0') = specCheck1 (normalize_cpf s) ∧
        charVal ((normalize_cpf s).getD 10 '0') =
          specCheck2 (normalize_cpf s))) ∧
    ((normalize_cpf s).length ≠ 11 → validate_cpf s = false) ∧
    (normalize_cpf s = List.replicate 11 ((normalize_cpf s).headD '0') →
      validate_cpf s = false) := by
  refine ⟨fun hlen hrep => ?_, fun hlen => ?_, fun hrep => ?_⟩
  · simp only [validate_cpf]
    rw [if_neg (by simp [hlen])]
    rw [if_neg hrep]
    revert hlen hrep
    generalize normalize_cpf s = d
    intro hlen hrep
    rcases d with _ | ⟨a0, _ | ⟨a1, _ | ⟨a2, _ | ⟨a3, _ | ⟨a4, _ | ⟨a5, _ |
      ⟨a6, _ | ⟨a7, _ | ⟨a8, _ | ⟨a9, _ | ⟨a10, _ | ⟨a11, rest⟩⟩⟩⟩⟩⟩⟩⟩⟩⟩⟩⟩ <;>
      try (exfalso; simp at hlen; done)
    have key1 : calcDigit
        (List.take 9 (List.map charVal [a0, a1, a2, a3, a4, a5, a6, a7, a8, a9, a10]))
        [10, 9, 8, 7, 6, 5, 4, 3, 2] =
        specCheck1 [a0, a1, a2, a3, a4, a5, a6, a7, a8, a9, a10] := by
      have h1 : List.take 9
          (List.map charVal [a0, a1, a2, a3, a4, a5, a6, a7, a8, a9, a10]) =
          [charVal a0, charVal a1, charVal a2, charVal a3, charVal a4,
           charVal a5, charVal a6, charVal a7, charVal a8] := rfl
      rw [h1]
      have hsum : (List.zipWith (· * ·)
          [charVal a0, charVal a1, charVal a2, charVal a3, charVal a4,
           charVal a5, charVal a6, charVal a7, charVal a8]
          [10, 9, 8, 7, 6, 5, 4, 3, 2]).sum =
          ∑ i ∈ Finset.range 9,
            charVal ([a0, a1, a2, a3, a4, a5, a6, a7, a8, a9, a10].getD i '0')
              * (10 - i) := by
        simp [Finset.sum_range_succ]
        ring
      simp only [calcDigit, specCheck1, specCheckMap]
      rw [hsum]
    have key2 : calcDigit
        (List.take 10 (List.map charVal [a0, a1, a2, a3, a4, a5, a6, a7, a8, a9, a10]))
        [11, 10, 9, 8, 7, 6, 5, 4, 3, 2] =
        specCheck2 [a0, a1, a2, a3, a4, a5, a6, a7, a8, a9, a10] := by
      have h1 : List.take 10
          (List.map charVal [a0, a1, a2, a3, a4, a5, a6, a7, a8, a9, a10]) =
          [charVal a0, charVal a1, charVal a2, charVal a3, charVal a4,
           charVal a5, charVal a6, charVal a7, charVal a8, charVal a9] := rfl
      rw [h1]
      have hsum : (List.zipWith (· * ·)
          [charVal a0, charVal a1, charVal a2, charVal a3, charVal a4,
           charVal a5, charVal a6, charVal a7, charVal a8, charVal a9]
          [11, 10, 9, 8, 7, 6, 5, 4, 3, 2]).sum =
          ∑ i ∈ Finset.range 10,
            charVal ([a0, a1, a2, a3, a4, a5, a6, a7, a8, a9, a10].getD i '0')
              * (11 - i) := by
        simp [Finset.sum_range_succ]
        ring
      simp only [calcDigit, specCheck2, specCheckMap]
      rw [hsum]
    rw [key1, key2]
    simp [Bool.and_eq_true, beq_iff_eq]
  · simp [validate_cpf, hlen]
  · by_cases hlen : (normalize_cpf s).length = 11
    · simp only [validate_cpf]
      rw [if_neg (by simp [hlen])]
      rw [if_pos hrep]
    · simp [validate_cpf, hlen]

/-- Witness for C5: the valid document 111.444.777-35. -/
theorem c5_validate_cpf_check_digit_characterization_witness :
    (normalize_cpf ("111.444.777-35".toList)).length = 11 ∧
    normalize_cpf ("111.444.777-35".toList) ≠
      List.replicate 11
        ((normalize_cpf ("111.444.777-35".toList)).headD '0') ∧
    (validate_cpf ("111.444.777-35".toList) = true ↔
      charVal ((normalize_cpf ("111.444.777-35".toList)).getD 9 '0') =
        specCheck1 (normalize_cpf ("111.444.777-35".toList)) ∧
      charVal ((normalize_cpf ("111.444.777-35".toList)).getD 10 '0') =
        specCheck2 (normalize_cpf ("111.444.777-35".toList))) :=
  ⟨by decide, by decide, (c5_validate_cpf_check_digit_characterization _).1 (by decide) (by decide)⟩

/-- Claim C6 counterexample: `PessoaService.add_pessoa` performs no birth
date validation — a person whose `data_nascimento` is the invalid
"99/99/9999" is accepted (no validation error) and the invalid date is
persisted. -/
theorem c6_invalid_birth_date_accepted_by_add_pessoa :
    validate_date ("99/99/9999".toList) = false ∧
    c6trace = .ok (1, [("99/99/9999".toList)]) := by decide

/-- Claim C6 (amended): the service add operations raise a `ValueError`
with a rule-identifying message, before any store mutation, for a missing
name, an invalid document, a duplicate document (person) and for a
missing title or missing/invalid event date (event); but
`PessoaService.add_pessoa` does NOT validate `data_nascimento` — an add
with a non-empty name and no document succeeds regardless of the birth
date. -/
theorem c6_service_add_validation_rules :
    (∀ (s : Svc) (p : PessoaInput), p.nome = [] →
      servAddPessoa s p = .error (.valueError ("O nome é obrigatório."))) ∧
    (∀ (s : Svc) (p : PessoaInput), p.nome ≠ [] →
      normalize_cpf p.cpf ≠ [] → validate_cpf (normalize_cpf p.cpf) = false →
      servAddPessoa s p = .error (.valueError ("CPF inválido."))) ∧
    (∀ (s : Svc) (p : PessoaInput), p.nome ≠ [] →
      normalize_cpf p.cpf ≠ [] → validate_cpf (normalize_cpf p.cpf) = true →
      cpfExists s.db (normalize_cpf p.cpf) none = true →
      servAddPessoa s p = .error (.valueError ("CPF já cadastrado."))) ∧
    (∀ (db : EventoDB) (e : EventoInput), e.titulo = [] →
      servAddEvento db e =
        .error (.valueError ("O título do evento é obrigatório."))) ∧
    (∀ (db : EventoDB) (e : EventoInput), e.titulo ≠ [] →
      (e.data_evento = [] ∨ validate_date e.data_evento = false) →
      servAddEvento db e = .error
        (.valueError ("Data do evento inválida. Use o formato DD/MM/AAAA."))) ∧
    (∀ (s : Svc) (p : PessoaInput), p.nome ≠ [] →
      normalize_cpf p.cpf = [] → (∀ r ∈ s.db.rows, r.cpf ≠ []) →
      ∃ s', servAddPessoa s p = .ok (s.db.nextId, s')) := by
  refine ⟨fun s p hn => ?_, fun s p hn hne hv => ?_, fun s p hn hne hv hex => ?_,
    fun db e ht => ?_, fun db e ht hd => ?_, fun s p hn hc hrows => ?_⟩
  · simp [servAddPessoa, hn]
  · simp [servAddPessoa, hn, hne, hv]
  · simp [servAddPessoa, hn, hne, hv, hex]
  · simp [servAddEvento, ht]
  · simp only [servAddEvento]
    rw [if_neg ht, if_pos (by tauto)]
  · have hdb : dbAddPessoa s.db p =
        .ok (s.db.nextId,
          { rows := s.db.rows ++
              [{ id := s.db.nextId, nome := p.nome, cpf := normalize_cpf p.cpf,
                 telefone := normalize_phone p.telefone,
                 cidade := p.cidade, bairro := p.bairro,
                 data_nascimento := p.data_nascimento, email := p.email,
                 rede_social := p.rede_social, observacoes := p.observacoes,
                 ativo := true }],
            nextId := s.db.nextId + 1 }) := by
      simp only [dbAddPessoa]
      rw [if_neg ?hno]
      case hno =>
        simp only [List.any_eq_true, not_exists, not_and]
        intro r hr
        simp only [hc, beq_iff_eq]
        intro hfalse
        exact hrows r hr (by simp [hfalse])
    refine ⟨{ s with db :=
      { rows := s.db.rows ++
          [{ id := s.db.nextId, nome := p.nome, cpf := normalize_cpf p.cpf,
             telefone := normalize_phone p.telefone,
             cidade := p.cidade, bairro := p.bairro,
             data_nascimento := p.data_nascimento, email := p.email,
             rede_social := p.rede_social, observacoes := p.observacoes,
             ativo := true }],
        nextId := s.db.nextId + 1 } }, ?_⟩
    simp [servAddPessoa, hn, hc, hdb]

/-- Witness for C6: each validation rule instantiated at a concrete
input. -/
theorem c6_service_add_validation_rules_witness :
    servAddPessoa Svc.init ({ cpf := ("123".toList) } : PessoaInput) =
      .error (.valueError ("O nome é obrigatório.")) ∧
    servAddPessoa Svc.init { nome := ("Ana".toList), cpf := ("123".toList) } =
      .error (.valueError ("CPF inválido.")) ∧
    servAddPessoa
      { db :=
          { rows := [{ id := 1
                       nome := ("Ana".toList)
                       cpf := ("11144477735".toList) }]
            nextId := 2 }
        cache := [] }
      { nome := ("Bia".toList), cpf := ("11144477735".toList) } =
      .error (.valueError ("CPF já cadastrado.")) ∧
    servAddEvento EventoDB.init ({} : EventoInput) =
      .error (.valueError ("O título do evento é obrigatório.")) ∧
    servAddEvento EventoDB.init
      { titulo := ("Culto".toList), data_evento := ("31/02/2024".toList) } =
      .error (.valueError ("Data do evento inválida. Use o formato DD/MM/AAAA.")) :=
  ⟨c6_service_add_validation_rules.1 _ _ (by decide),
   c6_service_add_validation_rules.2.1 _ _ (by decide) (by decide) (by decide),
   c6_service_add_validation_rules.2.2.1 _ _ (by decide) (by decide) (by decide) (by decide),
   c6_service_add_validation_rules.2.2.2.1 _ _ (by decide),
   c6_service_add_validation_rules.2.2.2.2.1 _ _ (by decide) (Or.inr (by decide))⟩

/-- Claim C7: for every input string,
`normalize_cpf (format_cpf (normalize_cpf x)) = normalize_cpf x` — the
round trip through formatting is idempotent on the digit string. -/
theorem c7_normalize_format_normalize_roundtrip (x : Str) :
    normalize_cpf (format_cpf (normalize_cpf x)) = normalize_cpf x := by
  set y := normalize_cpf x with hy
  have hdig : ∀ c ∈ y, c.isDigit := by
    intro c hc
    exact List.of_mem_filter hc
  have hyy : normalize_cpf y = y :=
    List.filter_eq_self.mpr (fun c hc => hdig c hc)
  by_cases hlen : y.length = 11
  · have hfmt : format_cpf y =
        y.take 3 ++ '.' :: (y.drop 3).take 3 ++ '.' :: (y.drop 6).take 3
          ++ '-' :: (y.drop 9).take 2 := by
      simp [format_cpf, hyy, hlen]
    rw [hfmt]
    have hdot : ('.' : Char).isDigit = false := rfl
    have hdash : ('-' : Char).isDigit = false := rfl
    have hA : (y.take 3).filter Char.isDigit = y.take 3 :=
      List.filter_eq_self.mpr (fun c hc => hdig c (List.take_subset _ _ hc))
    have hB : ((y.drop 3).take 3).filter Char.isDigit = (y.drop 3).take 3 :=
      List.filter_eq_self.mpr
        (fun c hc => hdig c (List.drop_subset _ _ (List.take_subset _ _ hc)))
    have hC : ((y.drop 6).take 3).filter Char.isDigit = (y.drop 6).take 3 :=
      List.filter_eq_self.mpr
        (fun c hc => hdig c (List.drop_subset _ _ (List.take_subset _ _ hc)))
    have hD : ((y.drop 9).take 2).filter Char.isDigit = (y.drop 9).take 2 :=
      List.filter_eq_self.mpr
        (fun c hc => hdig c (List.drop_subset _ _ (List.take_subset _ _ hc)))
    have h93 : (y.drop 9).take 2 = y.drop 9 :=
      List.take_of_length_le (by simp [hlen])
    have e1 : (y.drop 6).take 3 ++ y.drop 9 = y.drop 6 := by
      have h := List.take_append_drop 3 (y.drop 6)
      rwa [List.drop_drop] at h
    have e2 : (y.drop 3).take 3 ++ y.drop 6 = y.drop 3 := by
      have h := List.take_append_drop 3 (y.drop 3)
      rwa [List.drop_drop] at h
    have e3 : y.take 3 ++ y.drop 3 = y := List.take_append_drop 3 y
    simp only [normalize_cpf, List.filter_append, List.filter_cons, hdot,
      hdash, hA, hB, hC, hD, hyy]
    simp only [Bool.false_eq_true, if_false, List.append_assoc]
    rw [h93, e1, e2, e3]
  · have hfmt : format_cpf y = y := by
      simp [format_cpf, hyy, hlen]
    rw [hfmt, hyy]

/-- Claim C8: for canonical `DD/MM/YYYY` date strings, the ORDER BY
comparator of `search_eventos` — byte comparison of the year substring
(positions 7-10), then month (4-5), then day (1-2), each descending —
coincides with descending chronological comparison of the parsed
dates. -/
theorem c8_substring_order_equals_chronological_order (a b : Str)
    (ha : isCanonicalDate a = true) (hb : isCanonicalDate b = true) :
    eventCmp a b = chronoCmpDesc a b := by
  obtain ⟨d1, d2, m1, m2, y1, y2, y3, y4, rfl, hd1, hd2, hm1, hm2, hy1, hy2,
    hy3, hy4, hc1, hc2, hc3, hc4, hc5⟩ := canonical_shape a ha
  obtain ⟨e1, e2, n1, n2, z1, z2, z3, z4, rfl, he1, he2, hn1, hn2, hz1, hz2,
    hz3, hz4, hk1, hk2, hk3, hk4, hk5⟩ := canonical_shape b hb
  have hpa := parseDate_canonical d1 d2 m1 m2 y1 y2 y3 y4 hd1 hd2 hm1 hm2
    hy1 hy2 hy3 hy4 ⟨hc1, hc2, hc3, hc4, hc5⟩
  have hpb := parseDate_canonical e1 e2 n1 n2 z1 z2 z3 z4 he1 he2 hn1 hn2
    hz1 hz2 hz3 hz4 ⟨hk1, hk2, hk3, hk4, hk5⟩
  have ka1 : (([d1, d2, '/', m1, m2, '/', y1, y2, y3, y4] : Str).drop 6).take 4
      = [y1, y2, y3, y4] := rfl
  have ka2 : (([d1, d2, '/', m1, m2, '/', y1, y2, y3, y4] : Str).drop 3).take 2
      = [m1, m2] := rfl
  have ka3 : (([d1, d2, '/', m1, m2, '/', y1, y2, y3, y4] : Str).take 2)
      = [d1, d2] := rfl
  have kb1 : (([e1, e2, '/', n1, n2, '/', z1, z2, z3, z4] : Str).drop 6).take 4
      = [z1, z2, z3, z4] := rfl
  have kb2 : (([e1, e2, '/', n1, n2, '/', z1, z2, z3, z4] : Str).drop 3).take 2
      = [n1, n2] := rfl
  have kb3 : (([e1, e2, '/', n1, n2, '/', z1, z2, z3, z4] : Str).take 2)
      = [e1, e2] := rfl
  have cy : cmpBytes [z1, z2, z3, z4] [y1, y2, y3, y4] =
      compare (listVal [z1, z2, z3, z4]) (listVal [y1, y2, y3, y4]) :=
    cmpBytes_digits _ _ rfl
      (by intro c hc; simp only [List.mem_cons, List.not_mem_nil, or_false] at hc
          rcases hc with rfl | rfl | rfl | rfl <;> assumption)
      (by intro c hc; simp only [List.mem_cons, List.not_mem_nil, or_false] at hc
          rcases hc with rfl | rfl | rfl | rfl <;> assumption)
  have cm : cmpBytes [n1, n2] [m1, m2] =
      compare (listVal [n1, n2]) (listVal [m1, m2]) :=
    cmpBytes_digits _ _ rfl
      (by intro c hc; simp only [List.mem_cons, List.not_mem_nil, or_false] at hc
          rcases hc with rfl | rfl <;> assumption)
      (by intro c hc; simp only [List.mem_cons, List.not_mem_nil, or_false] at hc
          rcases hc with rfl | rfl <;> assumption)
  have cd : cmpBytes [e1, e2] [d1, d2] =
      compare (listVal [e1, e2]) (listVal [d1, d2]) :=
    cmpBytes_digits _ _ rfl
      (by intro c hc; simp only [List.mem_cons, List.not_mem_nil, or_false] at hc
          rcases hc with rfl | rfl <;> assumption)
      (by intro c hc; simp only [List.mem_cons, List.not_mem_nil, or_false] at hc
          rcases hc with rfl | rfl <;> assumption)
  simp only [eventCmp, chronoCmpDesc, hpa, hpb, ka1, ka2, ka3, kb1, kb2, kb3,
    cy, cm, cd]

/-- Witness for C8: two concrete valid dates. -/
theorem c8_substring_order_equals_chronological_order_witness :
    isCanonicalDate ("25/12/2024".toList) = true ∧
    isCanonicalDate ("01/01/2025".toList) = true ∧
    eventCmp ("25/12/2024".toList) ("01/01/2025".toList) =
      chronoCmpDesc ("25/12/2024".toList) ("01/01/2025".toList) :=
  ⟨by decide, by decide, c8_substring_order_equals_chronological_order _ _ (by decide) (by decide)⟩

/-- Claim C9 counterexample: for the valid date "05/03/0999" (year below
1000), the stored `month_year` is "03/999" — `strftime("%Y")` does not
zero-pad — which differs from the `MM/YYYY` component "03/0999" of the
date field, so the claim as stated fails. -/
theorem c9_month_year_drops_leading_zeros_of_year :
    (runLedger [.addExp ("Luz".toList) 150 ("05/03/0999".toList) []]).expenses.map
        (fun r => (r.date, r.month_year)) =
      [(("05/03/0999".toList), ("03/999".toList))] ∧
    isCanonicalDate ("05/03/0999".toList) = true ∧
    ("05/03/0999".toList).drop 3 = ("03/0999".toList) ∧
    ("03/999".toList) ≠ (("03/0999".toList) : Str) := by decide

/-- Claim C9 (amended): after any sequence of ledger adds and deletes
starting from the empty ledger, every expense and contribution row has a
strictly positive amount and a `month_year` equal to the zero-padded
month and the unpadded year of its parsed date; for canonical
`DD/MM/YYYY` dates with year ≥ 1000 this is exactly the `MM/YYYY` suffix
of the date string. -/
theorem c9_ledger_rows_positive_amount_consistent_month_year (ops : List LedgerOp) : ledgerInv (runLedger ops) := by
  rw [runLedger]
  have base : ledgerInv LedgerState.init := by
    constructor <;> intro r hr <;> simp [LedgerState.init] at hr
  revert base
  generalize LedgerState.init = st
  induction ops generalizing st with
  | nil => exact fun h => h
  | cons op ops ih =>
    intro h
    exact ih (applyLedgerOp st op) (applyLedgerOp_inv st op h)

/-- Claim C10: `search_pessoas` with any non-None filters dict raises
`TypeError` from the `lru_cache` wrapper before any query executes (a
dict is unhashable), and with `filters=None` the cached search
succeeds. -/
theorem c10_search_pessoas_dict_filters_raise_type_error :
    (∀ (s : Svc) (f : Filters) (b : Bool),
        servSearchPessoas s (some f) b = .error .typeError) ∧
    (∀ (s : Svc) (b : Bool), ∃ res s',
        servSearchPessoas s none b = .ok (res, s')) := by
  refine ⟨fun _ _ _ => rfl, fun s b => ?_⟩
  cases h : cacheLookup s.cache b with
  | none =>
    exact ⟨queryPessoas s.db none b,
      { s with cache := (b, queryPessoas s.db none b) :: s.cache },
      by simp [servSearchPessoas, h]⟩
  | some v => exact ⟨v, s, by simp [servSearchPessoas, h]⟩

end IBVRD
